import Mathlib

/-!
# Verification of the SMS campaign revenue-decline analysis pipeline

A shallow embedding of `src/analysis.py`: the ETL filter, row-level
enrichment, phone-label mapping, daily aggregation, pre/post descriptive
statistics, and the revenue-decline decomposition, together with proofs of
the testable properties stated in the specification.

Numeric modelling: the source computes with IEEE floating point via
pandas/numpy (warnings suppressed).  We model the values with exact
rationals plus an explicit tag for the non-finite results `+inf`, `-inf`
and `NaN` that numpy produces on division by zero, so that the spec's
distinction between "a ratio in [0,1]", "infinity" and "an explicit
undefined marker (NaN)" is observable.  Floating-point rounding itself is
not modelled; the claims under examination are about exact algebraic
identities (stated over ℚ, which implies the "up to floating-point
tolerance" reading) and about which non-finite marker appears.
-/

namespace RGSMS

/-- Result of a floating-point computation as observed in the pipeline:
a finite value (modelled exactly as a rational), `+inf`, `-inf`, or `NaN`.
`NaN` is the pipeline's explicit "undefined" marker (`np.nan`). -/
inductive FVal where
  | fin : ℚ → FVal
  | inf : FVal
  | negInf : FVal
  | nan : FVal
deriving DecidableEq

/-- IEEE division of finite values, as numpy performs it with warnings
suppressed: a nonzero numerator over zero gives a signed infinity and
`0/0` gives `NaN`. -/
def fdiv (a b : ℚ) : FVal :=
  if b ≠ 0 then .fin (a / b)
  else if a = 0 then .nan
  else if 0 < a then .inf
  else .negInf

/-- IEEE subtraction lifted to `FVal` (only the cases the pipeline can
produce matter; `NaN` propagates, `inf - inf = NaN`). -/
def fsub (x y : FVal) : FVal :=
  match x, y with
  | .fin a, .fin b => .fin (a - b)
  | .nan, _ => .nan
  | _, .nan => .nan
  | .inf, .inf => .nan
  | .inf, _ => .inf
  | .negInf, .negInf => .nan
  | .negInf, _ => .negInf
  | .fin _, .inf => .negInf
  | .fin _, .negInf => .inf

/-- IEEE division lifted to `FVal`. -/
def fdivF (x y : FVal) : FVal :=
  match x, y with
  | .fin a, .fin b => fdiv a b
  | .nan, _ => .nan
  | _, .nan => .nan
  | .inf, .inf => .nan
  | .inf, .negInf => .nan
  | .negInf, .inf => .nan
  | .negInf, .negInf => .nan
  | .inf, .fin b => if 0 ≤ b then .inf else .negInf
  | .negInf, .fin b => if 0 ≤ b then .negInf else .inf
  | .fin _, .inf => .fin 0
  | .fin _, .negInf => .fin 0

/-- IEEE multiplication of an `FVal` by a finite constant (used for the
`* 100` turning ratios into percentages). -/
def fmulC (x : FVal) (c : ℚ) : FVal :=
  match x with
  | .fin a => .fin (a * c)
  | .nan => .nan
  | .inf => if 0 < c then .inf else if c < 0 then .negInf else .nan
  | .negInf => if 0 < c then .negInf else if c < 0 then .inf else .nan

/-- `x` is a finite value lying in the unit interval `[0, 1]`. -/
def inUnitInterval : FVal → Prop
  | .fin q => 0 ≤ q ∧ q ≤ 1
  | _ => False

instance : DecidablePred inUnitInterval := by
  intro x
  cases x <;> simp [inUnitInterval] <;> infer_instance

/-- One row of `SmsDeliveryReport.csv` after type coercion: one observation
for a (date, carrier, segment, phone) combination.  Dates are encoded as
day ordinals (ℕ), which preserves the ordering and equality structure used
by the pipeline; revenue is an exact rational. -/
structure Record where
  date : ℕ
  phone : ℤ
  carrier : String
  segment : String
  sent : ℕ
  delivered : ℕ
  clicks : ℕ
  uniqueClicks : ℕ
  bounces : ℕ
  refusals : ℕ
  revenue : ℚ
deriving DecidableEq

/-- The short code excluded by the ETL filter (`analysis.py` line 35). -/
def excludedPhone : ℤ := 20407

/-- The hard-coded list of retired phone identifiers (line 55). -/
def retired_phones : List ℤ := [15122546961, 15122546963, 15122546966, 15122546967]

/-- `df = raw[raw["Sms Phone Number"] != 20407]` (line 35). -/
def etlFilter (raw : List Record) : List Record :=
  raw.filter (fun r => r.phone ≠ excludedPhone)

/-- Row-level `Delivery_Rate` (line 42): `np.where(Sent > 0, Delivered/Sent, nan)`. -/
def rowDeliveryRate (r : Record) : FVal :=
  if 0 < r.sent then .fin ((r.delivered : ℚ) / (r.sent : ℚ)) else .nan

/-- Row-level `CTR` (line 45): `np.where(Sent > 0, Clicks/Sent, nan)`. -/
def rowCTR (r : Record) : FVal :=
  if 0 < r.sent then .fin ((r.clicks : ℚ) / (r.sent : ℚ)) else .nan

/-- Row-level `Rev_per_Sent` (line 48): `np.where(Sent > 0, Revenue/Sent, nan)`. -/
def rowRevPerSent (r : Record) : FVal :=
  if 0 < r.sent then .fin (r.revenue / (r.sent : ℚ)) else .nan

/-- `sorted(df["Sms Phone Number"].unique())` (line 51): the distinct phone
identifiers of a table, in ascending order. -/
def distinctPhones (df : List Record) : List ℤ :=
  List.insertionSort (· ≤ ·) (df.map Record.phone).dedup

/-- The label attached to the phone at 0-based index `i` of the sorted
distinct list: `f"Phone_{i+1}"` (line 51). -/
def phoneLabel (i : ℕ) : String :=
  "Phone_" ++ Nat.repr (i + 1)

/-- `phone_map` (line 51) as an association list from phone identifier to
label, in ascending identifier order. -/
def phone_map (df : List Record) : List (ℤ × String) :=
  (distinctPhones df).enum.map (fun iv => (iv.2, phoneLabel iv.1))

/-- `Phone_Group` tag (lines 56-58). -/
def phoneGroup (r : Record) : String :=
  if r.phone ∈ retired_phones then "Retired (4 numbers)" else "Active (2 numbers)"

/-- The distinct dates of a table in ascending order: the index of the
`daily` groupby after `sort_index()` (lines 67-79). -/
def datesOf (df : List Record) : List ℕ :=
  List.insertionSort (· ≤ ·) (df.map Record.date).dedup

/-- The rows of the table falling on day `d`. -/
def rowsOn (df : List Record) (d : ℕ) : List Record :=
  df.filter (fun r => r.date = d)

/-- Daily aggregate `Sent` (line 71): total messages sent on day `d`. -/
def dailySent (df : List Record) (d : ℕ) : ℕ :=
  ((rowsOn df d).map Record.sent).sum

/-- Daily aggregate `Delivered` (line 72). -/
def dailyDelivered (df : List Record) (d : ℕ) : ℕ :=
  ((rowsOn df d).map Record.delivered).sum

/-- Daily aggregate `Clicks` (line 73). -/
def dailyClicks (df : List Record) (d : ℕ) : ℕ :=
  ((rowsOn df d).map Record.clicks).sum

/-- Daily aggregate `Revenue` (line 70). -/
def dailyRevenue (df : List Record) (d : ℕ) : ℚ :=
  ((rowsOn df d).map Record.revenue).sum

/-- Daily `Delivery_Rate` (line 80): an unguarded float division of the
summed counts, `daily["Delivered"] / daily["Sent"]`. -/
def dailyDeliveryRate (df : List Record) (d : ℕ) : FVal :=
  fdiv (dailyDelivered df d : ℚ) (dailySent df d : ℚ)

/-- Daily `CTR` (line 81): `daily["Clicks"] / daily["Sent"]`, unguarded. -/
def dailyCTR (df : List Record) (d : ℕ) : FVal :=
  fdiv (dailyClicks df d : ℚ) (dailySent df d : ℚ)

/-- Daily `Rev_per_Sent` (line 82): `daily["Revenue"] / daily["Sent"]`, unguarded. -/
def dailyRevPerSent (df : List Record) (d : ℕ) : FVal :=
  fdiv (dailyRevenue df d) (dailySent df d : ℚ)

/-- Daily `Rev_per_Click` (line 83):
`daily["Revenue"] / daily["Clicks"].replace(0, 1)` — a zero click count is
replaced by a divisor of one, so the division is always by a nonzero
number and stays finite. -/
def dailyRevPerClick (df : List Record) (d : ℕ) : ℚ :=
  dailyRevenue df d / (if dailyClicks df d = 0 then 1 else (dailyClicks df d : ℚ))

/-- `pre = daily[daily.index < cutoff]` (line 95): the pre-period dates. -/
def preDates (df : List Record) (c : ℕ) : List ℕ :=
  (datesOf df).filter (fun d => d < c)

/-- `post = daily[daily.index >= cutoff]` (line 96): the post-period dates. -/
def postDates (df : List Record) (c : ℕ) : List ℕ :=
  (datesOf df).filter (fun d => ¬ d < c)

/-- pandas `Series.mean`: sum over length, `NaN` on an empty series
(`0/0` under `fdiv`). -/
def listMean (xs : List ℚ) : FVal :=
  fdiv xs.sum (xs.length : ℚ)

/-- `desc_table`'s "Pre-Decline Mean" for the Revenue column (lines 98-100). -/
def preRevenueMean (df : List Record) (c : ℕ) : FVal :=
  listMean ((preDates df c).map (dailyRevenue df))

/-- `desc_table`'s "Post-Decline Mean" for the Revenue column (lines 101-102). -/
def postRevenueMean (df : List Record) (c : ℕ) : FVal :=
  listMean ((postDates df c).map (dailyRevenue df))

/-- `desc_table["Pct Change"]` for the Revenue row (lines 104-108):
`(post_mean - pre_mean) / pre_mean * 100` in float arithmetic. -/
def pctChangeRevenue (df : List Record) (c : ℕ) : FVal :=
  fmulC (fdivF (fsub (postRevenueMean df c) (preRevenueMean df c)) (preRevenueMean df c)) 100

/-- `pre_df = df[df["Date"] < cutoff]` (line 287). -/
def preDf (df : List Record) (c : ℕ) : List Record :=
  df.filter (fun r => r.date < c)

/-- `post_df = df[df["Date"] >= cutoff]` (line 288). -/
def postDf (df : List Record) (c : ℕ) : List Record :=
  df.filter (fun r => ¬ r.date < c)

/-- `Date.nunique()` of a table (lines 289-290). -/
def nDays (df : List Record) : ℕ :=
  (df.map Record.date).dedup.length

/-- Total revenue of a table, `df["Revenue"].sum()`. -/
def revSum (df : List Record) : ℚ :=
  (df.map Record.revenue).sum

/-- Total sent count of a table as a rational, `df["Sent"].sum()`. -/
def sentSum (df : List Record) : ℚ :=
  (((df.map Record.sent).sum : ℕ) : ℚ)

/-- `pre_avg_rev` (line 292).  On the hypothesis domain of the decomposition
claims the period is non-empty, so the ℚ division agrees with the float
division of the source. -/
def pre_avg_rev (df : List Record) (c : ℕ) : ℚ :=
  revSum (preDf df c) / (nDays (preDf df c) : ℚ)

/-- `post_avg_rev` (line 293). -/
def post_avg_rev (df : List Record) (c : ℕ) : ℚ :=
  revSum (postDf df c) / (nDays (postDf df c) : ℚ)

/-- `total_decline = post_avg_rev - pre_avg_rev` (line 294). -/
def total_decline (df : List Record) (c : ℕ) : ℚ :=
  post_avg_rev df c - pre_avg_rev df c

/-- `pre_avg_sent` (line 296). -/
def pre_avg_sent (df : List Record) (c : ℕ) : ℚ :=
  sentSum (preDf df c) / (nDays (preDf df c) : ℚ)

/-- `post_avg_sent` (line 297). -/
def post_avg_sent (df : List Record) (c : ℕ) : ℚ :=
  sentSum (postDf df c) / (nDays (postDf df c) : ℚ)

/-- `pre_rps = pre_avg_rev / pre_avg_sent` (line 298). -/
def pre_rps (df : List Record) (c : ℕ) : ℚ :=
  pre_avg_rev df c / pre_avg_sent df c

/-- `post_rps = post_avg_rev / post_avg_sent` (line 299). -/
def post_rps (df : List Record) (c : ℕ) : ℚ :=
  post_avg_rev df c / post_avg_sent df c

/-- `volume_effect = (post_avg_sent - pre_avg_sent) * pre_rps` (line 302). -/
def volume_effect (df : List Record) (c : ℕ) : ℚ :=
  (post_avg_sent df c - pre_avg_sent df c) * pre_rps df c

/-- `efficiency_effect = (post_rps - pre_rps) * post_avg_sent` (line 303). -/
def efficiency_effect (df : List Record) (c : ℕ) : ℚ :=
  (post_rps df c - pre_rps df c) * post_avg_sent df c

/-- The rows of a table whose phone is in the retired list,
`df[df["Sms Phone Number"].isin(retired_phones)]`. -/
def retiredRows (df : List Record) : List Record :=
  df.filter (fun r => r.phone ∈ retired_phones)

/-- The complementary rows, `df[~df["Sms Phone Number"].isin(retired_phones)]`. -/
def activeRows (df : List Record) : List Record :=
  df.filter (fun r => r.phone ∉ retired_phones)

/-- `retired_effect = post_retired_rev - pre_retired_rev` (lines 306-308):
each term is the group's revenue total over the period divided by the
period's number of distinct dates. -/
def retired_effect (df : List Record) (c : ℕ) : ℚ :=
  revSum (retiredRows (postDf df c)) / (nDays (postDf df c) : ℚ)
    - revSum (retiredRows (preDf df c)) / (nDays (preDf df c) : ℚ)

/-- `active_effect = post_active_rev - pre_active_rev` (lines 310-312). -/
def active_effect (df : List Record) (c : ℕ) : ℚ :=
  revSum (activeRows (postDf df c)) / (nDays (postDf df c) : ℚ)
    - revSum (activeRows (preDf df c)) / (nDays (preDf df c) : ℚ)

/-- An effect's printed percentage share of the total decline
(lines 318-322): `effect / total_decline * 100` in float arithmetic. -/
def effectShare (effect td : ℚ) : FVal :=
  fmulC (fdiv effect td) 100

/-! ## Helper lemmas -/

/-- Membership in the sorted distinct phone list is membership in the
phone column. -/
lemma mem_distinctPhones {df : List Record} {a : ℤ} :
    a ∈ distinctPhones df ↔ a ∈ df.map Record.phone := by
  unfold distinctPhones
  rw [(List.perm_insertionSort _ _).mem_iff, List.mem_dedup]

/-- The retired/active split partitions a table's revenue total. -/
lemma revSum_retired_active (l : List Record) :
    revSum (retiredRows l) + revSum (activeRows l) = revSum l := by
  unfold revSum retiredRows activeRows
  exact List.sum_map_filter_add_sum_map_filter_not
    (fun r => r.phone ∈ retired_phones) Record.revenue l

/-- The ETL filter acts on the phone column as a plain column filter. -/
lemma map_phone_etlFilter (raw : List Record) :
    (etlFilter raw).map Record.phone
      = (raw.map Record.phone).filter (fun p => p ≠ excludedPhone) := by
  unfold etlFilter
  induction raw with
  | nil => rfl
  | cons r t ih =>
      simp only [ne_eq, decide_not] at ih
      by_cases h : r.phone = excludedPhone <;>
        simp [List.filter_cons, h, ih]

/-! ## C1: volume/efficiency decomposition additivity -/

/-- **C1.** For every dataset whose pre and post periods are non-empty and
have non-zero average daily sent, `volume_effect + efficiency_effect =
total_decline` — exactly, over ℚ, which implies the claim's
"up to floating-point tolerance" reading. -/
theorem c1_decomposition_additivity (df : List Record) (c : ℕ)
    (hpre : nDays (preDf df c) ≠ 0) (hpost : nDays (postDf df c) ≠ 0)
    (hps : pre_avg_sent df c ≠ 0) (hqs : post_avg_sent df c ≠ 0) :
    volume_effect df c + efficiency_effect df c = total_decline df c := by
  unfold volume_effect efficiency_effect total_decline pre_rps post_rps
  field_simp
  ring

/-- Concrete two-day dataset: day 0 (pre) with 100 sends and revenue 100,
day 1 (post) with 100 sends and revenue 200. -/
def exC1 : List Record :=
  [⟨0, 1, "A", "S", 100, 90, 10, 8, 0, 0, 100⟩,
   ⟨1, 1, "A", "S", 100, 90, 10, 8, 0, 0, 200⟩]

/-- Witness for C1 at `exC1` with cutoff 1. -/
theorem c1_decomposition_additivity_witness :
    volume_effect exC1 1 + efficiency_effect exC1 1 = total_decline exC1 1 :=
  c1_decomposition_additivity exC1 1 (by decide) (by decide)
    (by norm_num [pre_avg_sent, sentSum, nDays, preDf, exC1])
    (by norm_num [post_avg_sent, sentSum, nDays, postDf, exC1])

/-! ## C2: phone-group decomposition additivity -/

/-- **C2.** For every dataset with non-empty pre and post periods, the
retired-group effect plus the active-group effect equals the total
decline exactly. -/
theorem c2_phone_group_additivity (df : List Record) (c : ℕ)
    (hpre : nDays (preDf df c) ≠ 0) (hpost : nDays (postDf df c) ≠ 0) :
    retired_effect df c + active_effect df c = total_decline df c := by
  unfold retired_effect active_effect total_decline post_avg_rev pre_avg_rev
  rw [← revSum_retired_active (preDf df c), ← revSum_retired_active (postDf df c),
    add_div, add_div]
  ring

/-- Witness for C2 at `exC1` with cutoff 1. -/
theorem c2_phone_group_additivity_witness :
    retired_effect exC1 1 + active_effect exC1 1 = total_decline exC1 1 :=
  c2_phone_group_additivity exC1 1 (by decide) (by decide)

/-! ## C8: revenue-per-click zero-click substitution -/

/-- **C8.** For every day of the daily aggregate whose total click count is
zero, `Rev_per_Click` divides by the substituted divisor 1, yielding the
raw daily revenue. -/
theorem c8_rev_per_click_zero_clicks (df : List Record) (d : ℕ)
    (h : dailyClicks df d = 0) :
    dailyRevPerClick df d = dailyRevenue df d := by
  simp [dailyRevPerClick, h]

/-- Witness for C8: a one-row day with no clicks and revenue 7. -/
theorem c8_rev_per_click_zero_clicks_witness :
    dailyRevPerClick [⟨0, 1, "A", "S", 10, 9, 0, 0, 0, 0, 7⟩] 0
      = dailyRevenue [⟨0, 1, "A", "S", 10, 9, 0, 0, 0, 0, 7⟩] 0 :=
  c8_rev_per_click_zero_clicks _ 0 (by decide)

/-! ## C9: the exclusion filter -/

/-- **C9.** Filtering never increases the row count, and the excluded phone
identifier appears neither in the filtered table's phone column nor in the
distinct-phone list from which every downstream phone-indexed output
(phone labels, per-phone groupings) is built. -/
theorem c9_exclusion_filter (raw : List Record) :
    (etlFilter raw).length ≤ raw.length ∧
    excludedPhone ∉ (etlFilter raw).map Record.phone ∧
    excludedPhone ∉ distinctPhones (etlFilter raw) := by
  have hmap : excludedPhone ∉ (etlFilter raw).map Record.phone := by
    rw [map_phone_etlFilter]
    intro h
    have := List.of_mem_filter h
    simp at this
  exact ⟨List.length_filter_le _ _, hmap, fun h => hmap (mem_distinctPhones.mp h)⟩

/-- Membership in the sorted distinct date list is membership in the
date column: every row's date gets a daily-aggregate row. -/
lemma mem_datesOf {df : List Record} {d : ℕ} :
    d ∈ datesOf df ↔ d ∈ df.map Record.date := by
  unfold datesOf
  rw [(List.perm_insertionSort _ _).mem_iff, List.mem_dedup]

/-- An effect's printed share when the total decline is exactly zero:
the float division by zero produces a signed infinity or `NaN` by the
sign of the numerator. -/
lemma effectShare_zero (e : ℚ) :
    effectShare e 0
      = (if e = 0 then FVal.nan else if 0 < e then FVal.inf else FVal.negInf) := by
  unfold effectShare fdiv
  by_cases h : e = 0
  · simp [h, fmulC]
  · by_cases h2 : 0 < e <;> simp [h, h2, fmulC] <;> norm_num

/-! ## C3: daily delivery rate and CTR (corrected) -/

/-- A dataset refuting C3 as stated: on day 0 the total sent is 0 but a
delivered count of 1 was recorded (the spec notes `delivered ≤ sent` is
*not* enforced), so `Delivered/Sent` is `+inf`, not an undefined marker;
on day 1 one send got two clicks, so the CTR is 2, outside `[0,1]`. -/
def exC3 : List Record :=
  [⟨0, 1, "A", "S", 0, 1, 0, 0, 0, 0, 0⟩,
   ⟨1, 1, "A", "S", 1, 0, 2, 2, 0, 0, 0⟩]

/-- **C3, counterexample.** On `exC3`, day 0 has total sent = 0 yet its
delivery rate is `+inf` (the claim demands an explicit undefined marker and
"never infinity"), and day 1 has sent > 0 yet its CTR equals 2, outside
`[0,1]`. -/
theorem c3_counterexample :
    dailySent exC3 0 = 0 ∧ dailyDeliveryRate exC3 0 = FVal.inf ∧
    0 < dailySent exC3 1 ∧ dailyCTR exC3 1 = FVal.fin 2 ∧
    ¬ inUnitInterval (dailyCTR exC3 1) := by
  have h0 : rowsOn exC3 0 = [⟨0, 1, "A", "S", 0, 1, 0, 0, 0, 0, 0⟩] := by
    simp [rowsOn, exC3]
  have h1 : rowsOn exC3 1 = [⟨1, 1, "A", "S", 1, 0, 2, 2, 0, 0, 0⟩] := by
    simp [rowsOn, exC3]
  refine ⟨?_, ?_, ?_, ?_, ?_⟩ <;>
    simp [dailySent, dailyDeliveryRate, dailyCTR, dailyDelivered, dailyClicks,
      h0, h1, fdiv, inUnitInterval] <;> norm_num

/-- **C3, amended.** The claim holds once the expected-but-unenforced
invariants `delivered ≤ sent` and `clicks ≤ sent` are added as hypotheses
on the day's totals: the daily delivery rate and CTR lie in `[0,1]`
whenever the day's total sent is positive, and both are the `NaN`
undefined marker (not infinity, not a fault) when the total sent is
zero. -/
theorem c3_daily_rates_amended (df : List Record) (d : ℕ)
    (hd : dailyDelivered df d ≤ dailySent df d)
    (hc : dailyClicks df d ≤ dailySent df d) :
    (0 < dailySent df d →
      inUnitInterval (dailyDeliveryRate df d) ∧ inUnitInterval (dailyCTR df d)) ∧
    (dailySent df d = 0 →
      dailyDeliveryRate df d = FVal.nan ∧ dailyCTR df d = FVal.nan) := by
  constructor
  · intro hpos
    have hs : ((dailySent df d : ℚ)) ≠ 0 := by
      exact_mod_cast hpos.ne'
    constructor <;>
      simp [dailyDeliveryRate, dailyCTR, fdiv, hs, inUnitInterval] <;>
      constructor
    · positivity
    · rw [div_le_one (by exact_mod_cast hpos)]
      exact_mod_cast hd
    · positivity
    · rw [div_le_one (by exact_mod_cast hpos)]
      exact_mod_cast hc
  · intro h0
    have hdel : dailyDelivered df d = 0 := Nat.le_zero.mp (h0 ▸ hd)
    have hcl : dailyClicks df d = 0 := Nat.le_zero.mp (h0 ▸ hc)
    constructor <;> simp [dailyDeliveryRate, dailyCTR, fdiv, h0, hdel, hcl]

/-- Witness for the amended C3 at `exC1`, day 0 (100 sent, 90 delivered,
10 clicks). -/
theorem c3_daily_rates_amended_witness :
    (0 < dailySent exC1 0 →
      inUnitInterval (dailyDeliveryRate exC1 0) ∧ inUnitInterval (dailyCTR exC1 0)) ∧
    (dailySent exC1 0 = 0 →
      dailyDeliveryRate exC1 0 = FVal.nan ∧ dailyCTR exC1 0 = FVal.nan) :=
  c3_daily_rates_amended exC1 0 (by decide) (by decide)

/-! ## C4: zero-sent rows -/

/-- **C4.** Every input row with `sent = 0` has all three derived ratios
marked with the explicit `NaN` undefined value (never an infinity, never a
fault), and the daily aggregation still produces a row for that record's
date (the record is not dropped and causes no fault: every aggregate is a
total function of the table). -/
theorem c4_zero_sent_row (df : List Record) (r : Record)
    (h0 : r.sent = 0) (hmem : r ∈ df) :
    rowDeliveryRate r = FVal.nan ∧ rowCTR r = FVal.nan ∧
    rowRevPerSent r = FVal.nan ∧ r.date ∈ datesOf df := by
  refine ⟨?_, ?_, ?_, mem_datesOf.mpr (List.mem_map_of_mem Record.date hmem)⟩ <;>
    simp [rowDeliveryRate, rowCTR, rowRevPerSent, h0]

/-- Witness for C4: a single zero-sent row with nonzero revenue. -/
theorem c4_zero_sent_row_witness :
    rowDeliveryRate ⟨0, 1, "A", "S", 0, 0, 0, 0, 0, 0, 5⟩ = FVal.nan ∧
    rowCTR ⟨0, 1, "A", "S", 0, 0, 0, 0, 0, 0, 5⟩ = FVal.nan ∧
    rowRevPerSent ⟨0, 1, "A", "S", 0, 0, 0, 0, 0, 0, 5⟩ = FVal.nan ∧
    (⟨0, 1, "A", "S", 0, 0, 0, 0, 0, 0, 5⟩ : Record).date
      ∈ datesOf [⟨0, 1, "A", "S", 0, 0, 0, 0, 0, 0, 5⟩] :=
  c4_zero_sent_row [⟨0, 1, "A", "S", 0, 0, 0, 0, 0, 0, 5⟩] _ rfl (List.mem_singleton.mpr rfl)

/-! ## C5: percentages with a zero denominator (corrected) -/

/-- A dataset refuting C5 as stated: pre-period (day 0) revenue is 0 and
post-period (day 1) revenue is 100. -/
def exC5 : List Record :=
  [⟨0, 1, "A", "S", 10, 9, 1, 1, 0, 0, 0⟩,
   ⟨1, 1, "A", "S", 10, 9, 1, 1, 0, 0, 100⟩]

/-- **C5, counterexample.** On `exC5` with cutoff 1, the pre-period revenue
mean is exactly 0, and the descriptive percent change is produced as
`+inf` — an infinity, which the claim says must never occur. -/
theorem c5_counterexample :
    preRevenueMean exC5 1 = FVal.fin 0 ∧ pctChangeRevenue exC5 1 = FVal.inf := by
  have hdates : datesOf exC5 = [0, 1] := by decide
  have hpre : preDates exC5 1 = [0] := by rw [preDates, hdates]; rfl
  have hpost : postDates exC5 1 = [1] := by rw [postDates, hdates]; rfl
  have hr0 : dailyRevenue exC5 0 = 0 := by
    simp [dailyRevenue, rowsOn, exC5]
  have hr1 : dailyRevenue exC5 1 = 100 := by
    simp [dailyRevenue, rowsOn, exC5]
  have h1 : preRevenueMean exC5 1 = FVal.fin 0 := by
    simp [preRevenueMean, hpre, listMean, hr0, fdiv]
  have h2 : postRevenueMean exC5 1 = FVal.fin 100 := by
    simp [postRevenueMean, hpost, listMean, hr1, fdiv]
  refine ⟨h1, ?_⟩
  rw [pctChangeRevenue, h1, h2]
  norm_num [fsub, fdivF, fdiv, fmulC]

/-- **C5, amended.** When a percentage's denominator is exactly zero the
pipeline does not produce a distinct explicit undefined marker: the float
division yields `+inf`, `-inf`, or `NaN` according to the sign of the
numerator (and no runtime fault).  The two cited code sites are covered
independently: whenever the pre-period revenue mean is exactly zero the
descriptive percent change follows the sign of the post-period mean, and
whenever the total decline is exactly zero every effect's percentage
share follows the sign of that effect. -/
theorem c5_zero_denominator_percentages (df : List Record) (c : ℕ) (p : ℚ) :
    (preRevenueMean df c = FVal.fin 0 → postRevenueMean df c = FVal.fin p →
      pctChangeRevenue df c
        = (if p = 0 then FVal.nan else if 0 < p then FVal.inf else FVal.negInf)) ∧
    (total_decline df c = 0 →
      effectShare (volume_effect df c) (total_decline df c)
          = (if volume_effect df c = 0 then FVal.nan
             else if 0 < volume_effect df c then FVal.inf else FVal.negInf) ∧
      effectShare (efficiency_effect df c) (total_decline df c)
          = (if efficiency_effect df c = 0 then FVal.nan
             else if 0 < efficiency_effect df c then FVal.inf else FVal.negInf) ∧
      effectShare (retired_effect df c) (total_decline df c)
          = (if retired_effect df c = 0 then FVal.nan
             else if 0 < retired_effect df c then FVal.inf else FVal.negInf) ∧
      effectShare (active_effect df c) (total_decline df c)
          = (if active_effect df c = 0 then FVal.nan
             else if 0 < active_effect df c then FVal.inf else FVal.negInf)) := by
  constructor
  · intro h0 hp
    rw [pctChangeRevenue, h0, hp]
    by_cases hz : p = 0
    · simp [hz, fsub, fdivF, fdiv, fmulC]
    · by_cases hpos : 0 < p <;>
        simp [hz, hpos, fsub, fdivF, fdiv, fmulC] <;> norm_num
  · intro htd
    have hs : ∀ e : ℚ, effectShare e (total_decline df c)
        = (if e = 0 then FVal.nan else if 0 < e then FVal.inf else FVal.negInf) := by
      intro e
      rw [htd]
      exact effectShare_zero e
    exact ⟨hs _, hs _, hs _, hs _⟩

/-- A two-day dataset with equal pre and post daily revenue (total decline
exactly zero) but shrinking volume: day 0 has 10 sends and revenue 10
(RPS 1), day 1 has 5 sends and revenue 10 (RPS 2), so the volume effect is
-5 and the efficiency effect is +5 while the total decline is 0. -/
def exC5s : List Record :=
  [⟨0, 1, "A", "S", 10, 9, 1, 1, 0, 0, 10⟩,
   ⟨1, 1, "A", "S", 5, 4, 1, 1, 0, 0, 10⟩]

/-- Witness for the amended C5: on `exC5` the zero pre-mean with positive
post-mean makes the percent change `+inf`; on `exC5s` the zero total
decline makes the volume share `-inf`, the efficiency share `+inf`, and
the (zero) group-effect shares `NaN`. -/
theorem c5_zero_denominator_percentages_witness :
    pctChangeRevenue exC5 1
        = (if (100 : ℚ) = 0 then FVal.nan
           else if 0 < (100 : ℚ) then FVal.inf else FVal.negInf) ∧
    (effectShare (volume_effect exC5s 1) (total_decline exC5s 1)
        = (if volume_effect exC5s 1 = 0 then FVal.nan
           else if 0 < volume_effect exC5s 1 then FVal.inf else FVal.negInf) ∧
     effectShare (efficiency_effect exC5s 1) (total_decline exC5s 1)
        = (if efficiency_effect exC5s 1 = 0 then FVal.nan
           else if 0 < efficiency_effect exC5s 1 then FVal.inf else FVal.negInf) ∧
     effectShare (retired_effect exC5s 1) (total_decline exC5s 1)
        = (if retired_effect exC5s 1 = 0 then FVal.nan
           else if 0 < retired_effect exC5s 1 then FVal.inf else FVal.negInf) ∧
     effectShare (active_effect exC5s 1) (total_decline exC5s 1)
        = (if active_effect exC5s 1 = 0 then FVal.nan
           else if 0 < active_effect exC5s 1 then FVal.inf else FVal.negInf)) := by
  constructor
  · have hdates : datesOf exC5 = [0, 1] := by decide
    have hpre : preDates exC5 1 = [0] := by rw [preDates, hdates]; rfl
    have hpost : postDates exC5 1 = [1] := by rw [postDates, hdates]; rfl
    have hr0 : dailyRevenue exC5 0 = 0 := by simp [dailyRevenue, rowsOn, exC5]
    have hr1 : dailyRevenue exC5 1 = 100 := by simp [dailyRevenue, rowsOn, exC5]
    have h0 : preRevenueMean exC5 1 = FVal.fin 0 := by
      simp [preRevenueMean, hpre, listMean, hr0, fdiv]
    have hp : postRevenueMean exC5 1 = FVal.fin 100 := by
      simp [postRevenueMean, hpost, listMean, hr1, fdiv]
    exact (c5_zero_denominator_percentages exC5 1 100).1 h0 hp
  · have htd : total_decline exC5s 1 = 0 := by
      norm_num [total_decline, post_avg_rev, pre_avg_rev, revSum, nDays,
        preDf, postDf, exC5s]
    exact (c5_zero_denominator_percentages exC5s 1 0).2 htd

/-! ## C6: error handling around the regression models (corrected) -/

/-- The successive top-level stages of `analysis.py`, in source order:
ETL (lines 29-62), daily aggregation (64-84), descriptive statistics
(86-125), figures (127-236), Model 1 fit (248-256), Model 2 fit
(258-282), the decline decomposition (284-322), the summary table
(324-368) and the coefficient table (370-386). -/
inductive Stage where
  | etl | dailyAgg | descStats | figures | model1 | model2
  | decomposition | summaryTable | coefTable
deriving DecidableEq

/-- The stages in the order the script executes them. -/
def scriptOrder : List Stage :=
  [.etl, .dailyAgg, .descStats, .figures, .model1, .model2,
   .decomposition, .summaryTable, .coefTable]

/-- The script is a straight-line sequence of statements with no
`try`/`except` anywhere, so a raised error in one stage aborts the whole
run: for a given set of failing stages, the stages that complete are
exactly the prefix of `scriptOrder` before the first failure. -/
def completedStages (fails : Stage → Bool) : List Stage :=
  scriptOrder.takeWhile (fun s => !(fails s))

/-- Any run in which a stage after the two model fits completed must have
had both model fits succeed: there is no error handling that could skip a
failed model. -/
lemma completed_requires_models (fails : Stage → Bool)
    (h : Stage.decomposition ∈ completedStages fails ∨
      Stage.summaryTable ∈ completedStages fails ∨
      Stage.coefTable ∈ completedStages fails) :
    fails .model1 = false ∧ fails .model2 = false := by
  unfold completedStages scriptOrder at h
  cases h1 : fails .etl <;> cases h2 : fails .dailyAgg <;>
    cases h3 : fails .descStats <;> cases h4 : fails .figures <;>
    cases h5 : fails .model1 <;> cases h6 : fails .model2 <;>
    simp_all [List.takeWhile_cons]

/-- A failure set in which only the Model 1 fit fails. -/
def failOnlyModel1 : Stage → Bool := fun s => decide (s = Stage.model1)

/-- **C6, counterexample.** If fitting Model 1 fails, the run does *not*
keep the failure local to that model: the analyses that had already run
(e.g. descriptive statistics) completed, but the decomposition, the
summary table, and the coefficient table — all independent of Model 1 —
never execute, because nothing in the script catches the error. -/
theorem c6_counterexample :
    failOnlyModel1 Stage.model1 = true ∧
    Stage.descStats ∈ completedStages failOnlyModel1 ∧
    Stage.decomposition ∉ completedStages failOnlyModel1 ∧
    Stage.summaryTable ∉ completedStages failOnlyModel1 ∧
    Stage.coefTable ∉ completedStages failOnlyModel1 := by decide

/-- **C6, amended.** A model-fitting failure is fatal for the entire
remainder of the run, not just for that model: if either regression
model's fit fails, the decomposition and the exported tables that follow
it in the script never complete. -/
theorem c6_model_failure_aborts_run (fails : Stage → Bool)
    (h : fails .model1 = true ∨ fails .model2 = true) :
    Stage.decomposition ∉ completedStages fails ∧
    Stage.summaryTable ∉ completedStages fails ∧
    Stage.coefTable ∉ completedStages fails := by
  refine ⟨fun hm => ?_, fun hm => ?_, fun hm => ?_⟩ <;>
    rcases completed_requires_models fails (by tauto) with ⟨hf1, hf2⟩ <;>
    rcases h with h | h <;> simp_all

/-- Witness for the amended C6 with only Model 1 failing. -/
theorem c6_model_failure_aborts_run_witness :
    Stage.decomposition ∉ completedStages failOnlyModel1 ∧
    Stage.summaryTable ∉ completedStages failOnlyModel1 ∧
    Stage.coefTable ∉ completedStages failOnlyModel1 :=
  c6_model_failure_aborts_run failOnlyModel1 (Or.inl (by decide))

/-! ## Decimal rendering of naturals

The phone labels are Python f-strings `f"Phone_{i+1}"`, embedded with
`Nat.repr`.  The bijection claim C7 needs injectivity of that decimal
rendering, proved here by relating core's fuelled `Nat.toDigitsCore` to
`Nat.digits`. -/

/-- With enough fuel, `Nat.toDigitsCore` prepends the most-significant-first
decimal digit characters of `n` to its accumulator. -/
lemma toDigitsCore_eq_digits : ∀ (fuel n : ℕ) (ds : List Char), 0 < n → n < fuel →
    Nat.toDigitsCore 10 fuel n ds = ((Nat.digits 10 n).map Nat.digitChar).reverse ++ ds := by
  intro fuel
  induction fuel with
  | zero => intro n ds h1 h2; omega
  | succ f ih =>
      intro n ds h1 h2
      rw [Nat.toDigitsCore]
      by_cases hdiv : n / 10 = 0
      · rw [Nat.digits_def' (by norm_num : (1:ℕ) < 10) h1, hdiv]
        simp [hdiv]
      · have h1' : 0 < n / 10 := Nat.pos_of_ne_zero hdiv
        have hlt : n / 10 < n := Nat.div_lt_self h1 (by norm_num)
        have h2' : n / 10 < f := by omega
        simp only [hdiv, if_false]
        rw [ih (n / 10) (Nat.digitChar (n % 10) :: ds) h1' h2']
        rw [Nat.digits_def' (by norm_num : (1:ℕ) < 10) h1]
        simp

/-- For positive `n`, `Nat.repr n` is the reversed digit-character list of
`Nat.digits 10 n`, packed into a string. -/
lemma repr_eq_digits (n : ℕ) (h : 0 < n) :
    Nat.repr n = (((Nat.digits 10 n).map Nat.digitChar).reverse).asString := by
  show (Nat.toDigits 10 n).asString = _
  rw [Nat.toDigits, toDigitsCore_eq_digits (n + 1) n [] h (Nat.lt_succ_self n)]
  simp

/-- `List.asString` is injective. -/
lemma data_eq_of_asString {l1 l2 : List Char} (h : l1.asString = l2.asString) : l1 = l2 := by
  have := congrArg String.data h
  simpa using this

/-- `Nat.digitChar` is injective below the base 10. -/
lemma digitChar_inj : ∀ a, a < 10 → ∀ b, b < 10 → Nat.digitChar a = Nat.digitChar b → a = b := by
  decide

/-- Mapping `Nat.digitChar` over lists of base-10 digits is injective. -/
lemma map_digitChar_inj : ∀ (l1 l2 : List ℕ), (∀ x ∈ l1, x < 10) → (∀ x ∈ l2, x < 10) →
    l1.map Nat.digitChar = l2.map Nat.digitChar → l1 = l2 := by
  intro l1
  induction l1 with
  | nil => intro l2 _ _ h; cases l2 <;> simp_all
  | cons a t ih =>
      intro l2 h1 h2 h
      cases l2 with
      | nil => simp_all
      | cons b t2 =>
          simp only [List.map_cons, List.cons.injEq] at h
          have hab := digitChar_inj a (h1 a (by simp)) b (h2 b (by simp)) h.1
          subst hab
          rw [ih t2 (fun x hx => h1 x (by simp [hx])) (fun x hx => h2 x (by simp [hx])) h.2]

/-- Decimal rendering of naturals is injective. -/
lemma nat_repr_injective : Function.Injective Nat.repr := by
  intro m n h
  rcases Nat.eq_zero_or_pos m with hm | hm <;> rcases Nat.eq_zero_or_pos n with hn | hn
  · omega
  · exfalso
    subst hm
    rw [repr_eq_digits n hn] at h
    have hd := data_eq_of_asString (show (['0'] : List Char).asString = _ from h)
    have hrev := congrArg List.reverse hd
    simp only [List.reverse_reverse] at hrev
    have hdig : Nat.digits 10 n = [0] := by
      apply map_digitChar_inj _ [0] (fun x hx => Nat.digits_lt_base (by norm_num) hx)
        (by intro x hx; simp at hx; omega)
      simpa using hrev.symm
    have h0 : n = Nat.ofDigits 10 (Nat.digits 10 n) := (Nat.ofDigits_digits 10 n).symm
    rw [hdig] at h0
    simp [Nat.ofDigits] at h0
    omega
  · exfalso
    subst hn
    rw [repr_eq_digits m hm] at h
    have hd := data_eq_of_asString (show _ = (['0'] : List Char).asString from h)
    have hrev := congrArg List.reverse hd
    simp only [List.reverse_reverse] at hrev
    have hdig : Nat.digits 10 m = [0] := by
      apply map_digitChar_inj _ [0] (fun x hx => Nat.digits_lt_base (by norm_num) hx)
        (by intro x hx; simp at hx; omega)
      simpa using hrev
    have h0 : m = Nat.ofDigits 10 (Nat.digits 10 m) := (Nat.ofDigits_digits 10 m).symm
    rw [hdig] at h0
    simp [Nat.ofDigits] at h0
    omega
  · rw [repr_eq_digits m hm, repr_eq_digits n hn] at h
    have hd := data_eq_of_asString h
    have hrev := congrArg List.reverse hd
    simp only [List.reverse_reverse] at hrev
    have he := map_digitChar_inj _ _ (fun x hx => Nat.digits_lt_base (by norm_num) hx)
      (fun x hx => Nat.digits_lt_base (by norm_num) hx) hrev
    calc m = Nat.ofDigits 10 (Nat.digits 10 m) := (Nat.ofDigits_digits 10 m).symm
    _ = Nat.ofDigits 10 (Nat.digits 10 n) := by rw [he]
    _ = n := Nat.ofDigits_digits 10 n

/-- Two strings with equal character data are equal. -/
lemma string_eq_of_data {s t : String} (h : s.data = t.data) : s = t := by
  cases s
  cases t
  exact congrArg String.mk (by simpa using h)

/-- The label map `i ↦ "Phone_{i+1}"` is injective. -/
lemma phoneLabel_injective : Function.Injective phoneLabel := by
  intro i j h
  unfold phoneLabel at h
  have hd := congrArg String.data h
  rw [String.data_append, String.data_append] at hd
  have hr := List.append_cancel_left hd
  have hs : Nat.repr (i + 1) = Nat.repr (j + 1) := string_eq_of_data hr
  have := nat_repr_injective hs
  omega

/-- The keys of `phone_map` are exactly the sorted distinct phones. -/
lemma phone_map_fst (df : List Record) :
    (phone_map df).map Prod.fst = distinctPhones df := by
  unfold phone_map
  rw [List.map_map]
  have he : (Prod.fst ∘ fun iv : ℕ × ℤ => (iv.2, phoneLabel iv.1)) = Prod.snd := rfl
  rw [he, List.enum_map_snd]

/-- The values of `phone_map` are the labels `Phone_1 .. Phone_N` in index
order, where `N` is the number of distinct phones. -/
lemma phone_map_snd (df : List Record) :
    (phone_map df).map Prod.snd
      = (List.range (distinctPhones df).length).map phoneLabel := by
  unfold phone_map
  rw [List.map_map]
  have he : (Prod.snd ∘ fun iv : ℕ × ℤ => (iv.2, phoneLabel iv.1))
      = phoneLabel ∘ Prod.fst := rfl
  rw [he, ← List.map_map, List.enum_map_fst]

/-- The sorted distinct phone list has no duplicates. -/
lemma distinctPhones_nodup (df : List Record) : (distinctPhones df).Nodup :=
  (List.perm_insertionSort _ _).nodup_iff.mpr (List.nodup_dedup _)

/-- The distinct phone list is strictly ascending. -/
lemma distinctPhones_sorted (df : List Record) :
    (distinctPhones df).Sorted (· < ·) :=
  (List.sorted_insertionSort _ _).lt_of_le (distinctPhones_nodup df)

/-! ## C7: the phone-label mapping -/

/-- **C7.** `phone_map` is a bijection from the distinct phone identifiers
onto the labels `Phone_1 .. Phone_N` assigned in ascending numeric order:
its keys are exactly the distinct identifiers in strictly ascending order,
its values are exactly the labels `Phone_1 .. Phone_N` in that order with
no duplicates, and the mapping is deterministic — it depends only on the
multiset of phone identifiers in the input (in particular, repeated runs
on the same input give the identical mapping). -/
theorem c7_phone_map_bijection (df : List Record) :
    (phone_map df).map Prod.fst = distinctPhones df ∧
    (distinctPhones df).Sorted (· < ·) ∧
    (phone_map df).map Prod.snd
      = (List.range (distinctPhones df).length).map phoneLabel ∧
    ((phone_map df).map Prod.snd).Nodup ∧
    ∀ df' : List Record, (df.map Record.phone).Perm (df'.map Record.phone) →
      phone_map df = phone_map df' := by
  refine ⟨phone_map_fst df, distinctPhones_sorted df, phone_map_snd df, ?_, ?_⟩
  · rw [phone_map_snd]
    exact List.Nodup.map phoneLabel_injective (List.nodup_range _)
  · intro df' hperm
    have hd : (df.map Record.phone).dedup.Perm (df'.map Record.phone).dedup := hperm.dedup
    have he : distinctPhones df = distinctPhones df' :=
      List.eq_of_perm_of_sorted
        (((List.perm_insertionSort _ _).trans hd).trans (List.perm_insertionSort _ _).symm)
        (List.sorted_insertionSort _ _) (List.sorted_insertionSort _ _)
    rw [phone_map, phone_map, he]

/-- Witness for C7 at `exC1`, discharging the determinism hypothesis with
a repeated run on the same input. -/
theorem c7_phone_map_bijection_witness :
    (phone_map exC1).map Prod.fst = distinctPhones exC1 ∧
    phone_map exC1 = phone_map exC1 :=
  ⟨(c7_phone_map_bijection exC1).1,
    (c7_phone_map_bijection exC1).2.2.2.2 exC1 (List.Perm.refl _)⟩

/-! ## C10: the phone-label mapping is built after the exclusion filter -/

/-- **C10.** The phone-label mapping built from the filtered table never
labels the excluded identifier; the number of labels `N` is the number of
distinct retained identifiers; and when the excluded identifier occurs in
the raw input, `N` is one less than the raw input's distinct-identifier
count. -/
theorem c10_phone_map_from_filtered (raw : List Record) :
    excludedPhone ∉ (phone_map (etlFilter raw)).map Prod.fst ∧
    (phone_map (etlFilter raw)).length
      = ((etlFilter raw).map Record.phone).dedup.length ∧
    (excludedPhone ∈ raw.map Record.phone →
      ((etlFilter raw).map Record.phone).dedup.length + 1
        = (raw.map Record.phone).dedup.length) := by
  refine ⟨?_, ?_, ?_⟩
  · rw [phone_map_fst]
    intro h
    have h2 := mem_distinctPhones.mp h
    rw [map_phone_etlFilter] at h2
    have := List.of_mem_filter h2
    simp at this
  · rw [phone_map, List.length_map, List.enum_length, distinctPhones,
      (List.perm_insertionSort _ _).length_eq]
  · intro hmem
    rw [map_phone_etlFilter]
    have h1 : ((raw.map Record.phone).filter (fun p => p ≠ excludedPhone)).toFinset
        = (raw.map Record.phone).toFinset.erase excludedPhone := by
      ext x
      simp [List.mem_toFinset, Finset.mem_erase, and_comm]
    have hcard : ((raw.map Record.phone).filter (fun p => p ≠ excludedPhone)).dedup.length
        = (raw.map Record.phone).dedup.length - 1 := by
      rw [← List.card_toFinset, ← List.card_toFinset, h1,
        Finset.card_erase_of_mem (List.mem_toFinset.mpr hmem)]
    have hpos : 0 < (raw.map Record.phone).dedup.length := by
      rw [← List.card_toFinset]
      exact Finset.card_pos.mpr ⟨excludedPhone, List.mem_toFinset.mpr hmem⟩
    omega

/-- A raw table containing the excluded short code 20407 alongside one
ordinary phone. -/
def exC10 : List Record :=
  [⟨0, 20407, "A", "S", 1, 1, 0, 0, 0, 0, 0⟩,
   ⟨0, 1, "A", "S", 1, 1, 0, 0, 0, 0, 0⟩]

/-- Witness for C10 at `exC10`. -/
theorem c10_phone_map_from_filtered_witness :
    excludedPhone ∉ (phone_map (etlFilter exC10)).map Prod.fst ∧
    ((etlFilter exC10).map Record.phone).dedup.length + 1
      = (exC10.map Record.phone).dedup.length :=
  ⟨(c10_phone_map_from_filtered exC10).1,
    (c10_phone_map_from_filtered exC10).2.2 (by decide)⟩

end RGSMS
